import Mathlib

/-!
Verification of the keyword search routine of the TalentDNA demo
(`src/similarity_app.py`, `NuvelSimilarityDemo.search_by_keywords`).

The dataset is a flat table of relationship rows (source person, similar
person, similarity score); `search_by_keywords` lowercases the query, splits
it on whitespace, keeps every row one of whose two concatenated text sides
contains some query word as a substring, emits a source-side and a
similar-side result dict per kept row, deduplicates by the string
`name + "_" + company`, and returns the Python slice `[:max_results]`.

Modelling conventions:
* a pandas row becomes the structure `Row` with all nine columns present
  (so `row.get(col, default)` always finds the column);
* a Python result dict becomes an association list `List (String × String)`
  in the literal key order of the source;
* Python `str.lower` / `str.split()` / `in` are modelled on ASCII text by
  `String.toLower`, whitespace splitting dropping empty pieces, and substring
  search on character lists;
* the float `similarity_score` is modelled as `ℚ`, exact for the decimal
  scores the demo uses; the `f"{x:.1f}"` rendering is round-half-even to one
  decimal digit;
* `max_results` is a Python `int`, so `ℤ`, and `[:max_results]` follows
  Python slice semantics including negative stops.
-/

/-- One relationship row of the demo CSV
(`source_*` person, `similar_*` person, `similarity_score`). -/
structure Row where
  source_name : String
  source_title : String
  source_company : String
  source_location : String
  similar_name : String
  similar_title : String
  similar_company : String
  similar_location : String
  similarity_score : ℚ
deriving DecidableEq

/-- A Python result dict, as the association list of its entries in
insertion order. -/
abbrev SearchResult := List (String × String)

/-- Python `str.lower()` (ASCII range, which covers the demo data). -/
def pyLower (s : String) : String :=
  ⟨s.data.map Char.toLower⟩

/-- Whitespace splitting of a character list: `cur` holds the characters of
the word being read, most recent first. -/
def splitWsAux (cur : List Char) : List Char → List (List Char)
  | [] => if cur.isEmpty then [] else [cur.reverse]
  | c :: cs =>
    if c.isWhitespace then
      if cur.isEmpty then splitWsAux [] cs else cur.reverse :: splitWsAux [] cs
    else splitWsAux (c :: cur) cs

/-- Python `str.split()` with no argument: split on whitespace runs,
dropping empty pieces. -/
def pySplit (s : String) : List String :=
  (splitWsAux [] s.data).map String.mk

/-- Substring search on character lists: does `w` occur contiguously in the
second list? (Empty `w` occurs everywhere, as in Python.) -/
def inCharList (w : List Char) : List Char → Bool
  | [] => w.isPrefixOf []
  | c :: t => w.isPrefixOf (c :: t) || inCharList w t

/-- Python `w in text` on strings: substring containment. -/
def pyIn (w text : String) : Bool :=
  inCharList w.data text.data

/-- Floor of a rational, computed on the raw fraction. -/
def ratFloor (q : ℚ) : ℤ :=
  q.num.fdiv q.den

/-- Round a rational to the nearest integer, ties to even
(the rounding Python's fixed-point float formatting performs). -/
def roundHalfEven (q : ℚ) : ℤ :=
  let f := ratFloor q
  let r := q - (f : ℚ)
  if r < 1/2 then f
  else if 1/2 < r then f + 1
  else if f % 2 = 0 then f else f + 1

/-- Python `f"{x:.1f}"` on the similarity score, modelled exactly on the
decimal scores the demo stores. -/
def formatScore (x : ℚ) : String :=
  let n := roundHalfEven (x * 10)
  let sign := if n < 0 then "-" else ""
  let m := n.natAbs
  sign ++ toString (m / 10) ++ "." ++ toString (m % 10)

/-- Line 60: the lowercased concatenation of the four source-side fields. -/
def sourceTextOf (row : Row) : String :=
  pyLower (row.source_name ++ " " ++ row.source_title ++ " " ++
    row.source_company ++ " " ++ row.source_location)

/-- Line 61: the lowercased concatenation of the four similar-side fields. -/
def similarTextOf (row : Row) : String :=
  pyLower (row.similar_name ++ " " ++ row.similar_title ++ " " ++
    row.similar_company ++ " " ++ row.similar_location)

/-- Line 64: `any(word in source_text for word in keywords_lower.split()) or
any(word in similar_text for word in keywords_lower.split())`. -/
def rowMatch (keywordsLower : String) (row : Row) : Bool :=
  (pySplit keywordsLower).any (fun w => pyIn w (sourceTextOf row)) ||
    (pySplit keywordsLower).any (fun w => pyIn w (similarTextOf row))

/-- Lines 66-73: the source-side result dict appended for a matching row. -/
def sourceResult (row : Row) : SearchResult :=
  [("name", row.source_name),
   ("title", row.source_title),
   ("company", row.source_company),
   ("location", row.source_location),
   ("profile_type", "Source Profile"),
   ("similarity_info", "Connected to " ++ row.similar_name ++ " (" ++
     formatScore row.similarity_score ++ "% similarity)")]

/-- Lines 75-82: the similar-side result dict appended for a matching row. -/
def similarResult (row : Row) : SearchResult :=
  [("name", row.similar_name),
   ("title", row.similar_title),
   ("company", row.similar_company),
   ("location", row.similar_location),
   ("profile_type", "Similar Professional"),
   ("similarity_info", "Similar to " ++ row.source_name ++ " (" ++
     formatScore row.similarity_score ++ "% similarity)")]

/-- Lines 58-82: the `matching_results` list, two dicts per matching row in
dataset order. `keywordsLower` is `keywords.lower()` from line 54. -/
def matchingResults (df : List Row) (keywordsLower : String) : List SearchResult :=
  df.flatMap (fun row =>
    if rowMatch keywordsLower row then [sourceResult row, similarResult row] else [])

/-- Dict access `result[key]` on the dicts this routine builds (every key it
asks for is present, so the `""` default is never reached on its inputs). -/
def getStr (r : SearchResult) (key : String) : String :=
  (List.lookup key r).getD ""

/-- Line 88: the dedup key `f"{result['name']}_{result['company']}"`. -/
def dedupKey (r : SearchResult) : String :=
  getStr r "name" ++ "_" ++ getStr r "company"

/-- Lines 85-91: the dedup loop over `matching_results`, threading the `seen`
set (modelled as the list of keys added so far). -/
def dedupAux (seen : List String) : List SearchResult → List SearchResult
  | [] => []
  | r :: rs =>
    if dedupKey r ∈ seen then dedupAux seen rs
    else r :: dedupAux (dedupKey r :: seen) rs

/-- Python `l[:n]` for an `int` stop `n`: nonnegative stops truncate to `n`
elements, negative stops drop the last `|n|` elements. -/
def pySliceTo (n : ℤ) (l : List α) : List α :=
  if 0 ≤ n then l.take n.toNat
  else l.take (l.length - (-n).toNat)

/-- Lines 49-93: `search_by_keywords(keywords, max_results)` over a loaded
dataset `df` (the `self.df.empty` guard of line 51 included). -/
def search_by_keywords (df : List Row) (keywords : String) (max_results : ℤ) : List SearchResult :=
  if df.isEmpty then []
  else pySliceTo max_results (dedupAux [] (matchingResults df (pyLower keywords)))

/-- The object state the method reads: the loaded dataframe. -/
structure DemoState where
  df : List Row
deriving DecidableEq

/-- The method as a state transformer on the demo object: it reads `self.df`
(lines 51 and 58) and writes nothing back. -/
def searchRun (s : DemoState) (keywords : String) (max_results : ℤ) :
    List SearchResult × DemoState :=
  if s.df.isEmpty then ([], s)
  else (pySliceTo max_results (dedupAux [] (matchingResults s.df (pyLower keywords))), s)

/-! ### Concrete demo rows used by the scenario theorems -/

/-- Row tying at one matched keyword with similarity 80.0:
source Sara (Staff engineer at Acme), similar Ben. -/
def rowA : Row :=
  ⟨"Sara", "Staff engineer", "Acme", "NY", "Ben", "Dev", "Beta", "LA", 80⟩

/-- Row tying at one matched keyword with similarity 92.0:
the same source Sara, similar Dana. -/
def rowB : Row :=
  ⟨"Sara", "Staff engineer", "Acme", "NY", "Dana", "Dev", "Delta", "SF", 92⟩

/-- Two-row dataset with the lower similarity row first. -/
def dfC1 : List Row := [rowA, rowB]

/-- Row whose source name is the two-character string `"ab"`. -/
def rowAb : Row :=
  ⟨"ab", "t", "c", "l", "x", "y", "z", "w", 50⟩

/-- Row whose two sides have distinct (name, company) pairs with the same
concatenated dedup key: `"A_B" + "_" + "C"` = `"A" + "_" + "B_C"`. -/
def rowClash : Row :=
  ⟨"A_B", "engineer", "C", "X", "A", "Dev", "B_C", "Y", 90⟩

/-! ### Structural lemmas about the dedup loop and the Python slice -/

/-- The dedup loop only ever drops elements, in place: its output is a
sublist of its input. -/
theorem dedupAux_sublist (seen : List String) (l : List SearchResult) :
    (dedupAux seen l).Sublist l := by
  induction l generalizing seen with
  | nil => simp [dedupAux]
  | cons r rs ih =>
    simp only [dedupAux]
    split
    · exact (ih seen).cons r
    · exact (ih _).cons₂ r

/-- A Python `[:n]` slice is a prefix, hence a sublist, for every `int` stop. -/
theorem pySliceTo_sublist (n : ℤ) (l : List α) : (pySliceTo n l).Sublist l := by
  unfold pySliceTo
  split <;> exact List.take_sublist _ _

/-- The returned list is a sublist of the deduplicated candidate list. -/
theorem search_sublist_dedup (df : List Row) (q : String) (n : ℤ) :
    (search_by_keywords df q n).Sublist (dedupAux [] (matchingResults df (pyLower q))) := by
  unfold search_by_keywords
  split
  · exact List.nil_sublist _
  · exact pySliceTo_sublist _ _

/-- The returned list is a sublist of the in-order candidate list
`matching_results`. -/
theorem search_sublist_matching (df : List Row) (q : String) (n : ℤ) :
    (search_by_keywords df q n).Sublist (matchingResults df (pyLower q)) :=
  (search_sublist_dedup df q n).trans (dedupAux_sublist _ _)

/-- Identity-key congruence: results agreeing on name and company agree on
the dedup key. -/
theorem dedupKey_congr {r₁ r₂ : SearchResult}
    (h₁ : getStr r₁ "name" = getStr r₂ "name")
    (h₂ : getStr r₁ "company" = getStr r₂ "company") :
    dedupKey r₁ = dedupKey r₂ := by
  rw [dedupKey, dedupKey, h₁, h₂]

/-- What survives the dedup loop: a kept result's key was not yet seen, and
the kept result is the first candidate carrying its (name, company) pair. -/
theorem mem_dedupAux {r : SearchResult} :
    ∀ (seen : List String) (l : List SearchResult), r ∈ dedupAux seen l →
      dedupKey r ∉ seen ∧
        l.find? (fun c => getStr c "name" == getStr r "name" &&
          getStr c "company" == getStr r "company") = some r := by
  intro seen l
  induction l generalizing seen with
  | nil => simp [dedupAux]
  | cons x xs ih =>
    intro hr
    simp only [dedupAux] at hr
    by_cases hx : dedupKey x ∈ seen
    · rw [if_pos hx] at hr
      obtain ⟨hns, hfind⟩ := ih seen hr
      refine ⟨hns, ?_⟩
      rw [List.find?_cons_of_neg, hfind]
      simp only [Bool.and_eq_true, beq_iff_eq, not_and]
      intro h₁ h₂
      exact hns (dedupKey_congr h₁ h₂ ▸ hx)
    · rw [if_neg hx] at hr
      rcases List.mem_cons.mp hr with h | h
      · subst h
        refine ⟨hx, ?_⟩
        rw [List.find?_cons_of_pos]
        simp
      · obtain ⟨hns, hfind⟩ := ih (dedupKey x :: seen) h
        have hxr : dedupKey x ≠ dedupKey r := fun he =>
          hns (he ▸ List.mem_cons_self _ _)
        refine ⟨fun hc => hns (List.mem_cons_of_mem _ hc), ?_⟩
        rw [List.find?_cons_of_neg, hfind]
        simp only [Bool.and_eq_true, beq_iff_eq, not_and]
        intro h₁ h₂
        exact hxr (dedupKey_congr h₁ h₂)

/-- The dedup loop's output carries pairwise distinct dedup keys. -/
theorem dedupAux_pairwise (seen : List String) (l : List SearchResult) :
    (dedupAux seen l).Pairwise (fun a b => dedupKey a ≠ dedupKey b) := by
  induction l generalizing seen with
  | nil => simp [dedupAux]
  | cons x xs ih =>
    simp only [dedupAux]
    split
    · exact ih seen
    · refine List.Pairwise.cons ?_ (ih _)
      intro b hb he
      exact (mem_dedupAux _ _ hb).1 (he ▸ List.mem_cons_self _ _)

/-- Every returned result is one of the two sides of some matching row. -/
theorem mem_search {df : List Row} {q : String} {n : ℤ} {r : SearchResult}
    (hr : r ∈ search_by_keywords df q n) :
    ∃ row ∈ df, rowMatch (pyLower q) row = true ∧
      (r = sourceResult row ∨ r = similarResult row) := by
  have hm : r ∈ matchingResults df (pyLower q) :=
    (search_sublist_matching df q n).subset hr
  rw [matchingResults, List.mem_flatMap] at hm
  obtain ⟨row, hrow, hmem⟩ := hm
  rcases Bool.eq_false_or_eq_true (rowMatch (pyLower q) row) with hb | hb
  · rw [hb] at hmem
    simp only [if_true] at hmem
    exact ⟨row, hrow, hb, by simpa using hmem⟩
  · rw [hb] at hmem
    simp at hmem

/-- If no row matches, the search returns the empty list. -/
theorem search_eq_nil_of_no_match (df : List Row) (q : String) (n : ℤ)
    (h : ∀ row ∈ df, rowMatch (pyLower q) row = false) :
    search_by_keywords df q n = [] := by
  have hm : matchingResults df (pyLower q) = [] := by
    rw [matchingResults, List.flatMap_eq_nil_iff]
    intro row hrow
    simp [h row hrow]
  rw [search_by_keywords]
  split
  · rfl
  · rw [hm]
    show pySliceTo n (dedupAux [] []) = []
    rw [show dedupAux [] [] = [] from rfl]
    unfold pySliceTo
    split <;> simp

/-! ### Claim theorems -/

/-- Claim C1, counterexample: two rows tie at one matched keyword with
similarity scores 80.0 (row first in the dataset, similar person Ben) and
92.0 (similar person Dana), yet the output lists Ben's record before Dana's:
the code never sorts by match score or similarity score, so the 92.0 record
does not come first. -/
theorem c1_counterexample :
    rowA.similarity_score = 80 ∧ rowB.similarity_score = 92 ∧
    getStr (similarResult rowA) "name" = "Ben" ∧
    getStr (similarResult rowB) "name" = "Dana" ∧
    (search_by_keywords dfC1 "engineer" 20).map (fun r => getStr r "name") =
      ["Sara", "Ben", "Dana"] ∧
    ¬ List.indexOf "Dana" ((search_by_keywords dfC1 "engineer" 20).map (fun r => getStr r "name")) <
        List.indexOf "Ben" ((search_by_keywords dfC1 "engineer" 20).map (fun r => getStr r "name")) :=
  ⟨rfl, rfl, by decide, by decide, by decide, by decide⟩

/-- Claim C1, amended: the search performs no reordering at all; the
returned list is a sublist of the in-order candidate list (source-side
result then similar-side result, per matching row, in original dataset
row order). -/
theorem c1_results_in_dataset_order (df : List Row) (q : String) (n : ℤ) :
    (search_by_keywords df q n).Sublist (matchingResults df (pyLower q)) :=
  search_sublist_matching df q n

/-- Claim C2, counterexample: the query "ab" has a single whitespace-split
token of length 2, yet the search over a row whose source name is "ab"
returns a nonempty list: the code applies no minimum token length. -/
theorem c2_counterexample :
    pySplit (pyLower "ab") = ["ab"] ∧
    (∀ t ∈ pySplit (pyLower "ab"), t.length ≤ 2) ∧
    search_by_keywords [rowAb] "ab" 20 ≠ [] :=
  ⟨by decide, by decide, by decide⟩

/-- Claim C2, amended: tokenization is plain lowercase whitespace splitting
with no length filter; a query with no tokens at all (empty or
whitespace-only) yields the empty result list for every dataset and
max_results. -/
theorem c2_no_tokens_empty (df : List Row) (q : String) (n : ℤ)
    (h : pySplit (pyLower q) = []) : search_by_keywords df q n = [] := by
  refine search_eq_nil_of_no_match df q n (fun row _ => ?_)
  rw [rowMatch, h]
  rfl

/-- Claim C2, witness: a whitespace-only query has no tokens and returns the
empty list on the concrete two-row dataset. -/
theorem c2_no_tokens_empty_witness :
    pySplit (pyLower " \t ") = [] ∧ search_by_keywords dfC1 " \t " 5 = [] :=
  ⟨by decide, c2_no_tokens_empty dfC1 " \t " 5 (by decide)⟩

/-- Claim C3, counterexample: max_results = -1 is non-positive, yet the
search returns a nonempty list (Python's `[:-1]` keeps all but the last
element instead of clamping to empty). -/
theorem c3_counterexample :
    (-1 : ℤ) ≤ 0 ∧ search_by_keywords dfC1 "engineer" (-1) ≠ [] :=
  ⟨by decide, by decide⟩

/-- Claim C3, amended: max_results = 0 returns the empty list (no error) for
every dataset and query; negative values instead follow Python negative
slicing and may return a nonempty list. -/
theorem c3_zero_max_results (df : List Row) (q : String) :
    search_by_keywords df q 0 = [] := by
  rw [search_by_keywords]
  split
  · rfl
  · unfold pySliceTo
    rw [if_pos le_rfl]
    simp

/-- Claim C4, counterexample: a returned result carries no "match_score"
entry at all. -/
theorem c4_counterexample :
    search_by_keywords [rowA] "engineer" 20 ≠ [] ∧
    List.lookup "match_score" ((search_by_keywords [rowA] "engineer" 20).headI) = none :=
  ⟨by decide, by decide⟩

/-- Claim C4, amended: every returned result dict has exactly the keys
name, title, company, location, profile_type, similarity_info — no
match_score annotation exists. -/
theorem c4_no_match_score_field (df : List Row) (q : String) (n : ℤ)
    (r : SearchResult) (hr : r ∈ search_by_keywords df q n) :
    r.map Prod.fst =
      ["name", "title", "company", "location", "profile_type", "similarity_info"] ∧
    List.lookup "match_score" r = none := by
  obtain ⟨row, _, _, hcase⟩ := mem_search hr
  rcases hcase with h | h <;> subst h <;> exact ⟨rfl, rfl⟩

/-- Claim C4, witness: the first result of a concrete search has exactly the
six keys and no match_score. -/
theorem c4_no_match_score_field_witness :
    (sourceResult rowA).map Prod.fst =
      ["name", "title", "company", "location", "profile_type", "similarity_info"] ∧
    List.lookup "match_score" (sourceResult rowA) = none :=
  c4_no_match_score_field dfC1 "engineer" 20 (sourceResult rowA) (List.Mem.head _)

/-- Claim C5: if no query token occurs as a substring of any row's
source-side or similar-side searchable text, the search returns the empty
list; and in general every returned result is one of the two projections of
a row at least one of whose sides contains a query token, so a row matching
no token contributes nothing. -/
theorem c5_no_token_no_result (df : List Row) (q : String) (n : ℤ) :
    ((∀ row ∈ df, ∀ t ∈ pySplit (pyLower q),
        pyIn t (sourceTextOf row) = false ∧ pyIn t (similarTextOf row) = false) →
      search_by_keywords df q n = []) ∧
    (∀ r ∈ search_by_keywords df q n, ∃ row ∈ df,
      rowMatch (pyLower q) row = true ∧
        (r = sourceResult row ∨ r = similarResult row)) := by
  constructor
  · intro H
    refine search_eq_nil_of_no_match df q n (fun row hrow => ?_)
    rw [rowMatch, Bool.or_eq_false_iff]
    constructor <;> rw [List.any_eq_false] <;> intro t ht
    · rw [(H row hrow t ht).1]
      exact Bool.false_ne_true
    · rw [(H row hrow t ht).2]
      exact Bool.false_ne_true
  · intro r hr
    exact mem_search hr

/-- Claim C5, witness: the query "zzz" occurs in no text of the concrete
one-row dataset and the search returns the empty list. -/
theorem c5_no_token_no_result_witness :
    search_by_keywords [rowA] "zzz" 7 = [] :=
  (c5_no_token_no_result [rowA] "zzz" 7).1 (by decide)

/-- Claim C6: no two returned results share the same (name, company) pair,
and every returned result is the first candidate of the in-order candidate
list carrying its (name, company) pair (the highest-ranked occurrence is
the one kept). -/
theorem c6_identity_dedup (df : List Row) (q : String) (n : ℤ) :
    (search_by_keywords df q n).Pairwise
      (fun r₁ r₂ => ¬(getStr r₁ "name" = getStr r₂ "name" ∧
        getStr r₁ "company" = getStr r₂ "company")) ∧
    ∀ r ∈ search_by_keywords df q n,
      (matchingResults df (pyLower q)).find?
        (fun c => getStr c "name" == getStr r "name" &&
          getStr c "company" == getStr r "company") = some r := by
  constructor
  · refine List.Pairwise.imp ?_
      (List.Pairwise.sublist (search_sublist_dedup df q n)
        (dedupAux_pairwise [] (matchingResults df (pyLower q))))
    intro a b hab hcon
    exact hab (dedupKey_congr hcon.1 hcon.2)
  · intro r hr
    exact (mem_dedupAux [] _ ((search_sublist_dedup df q n).subset hr)).2

/-- Claim C6, witness: on the concrete dataset, the kept result for
(Sara, Acme) is the first candidate with that identity. -/
theorem c6_identity_dedup_witness :
    (matchingResults dfC1 (pyLower "engineer")).find?
      (fun c => getStr c "name" == getStr (sourceResult rowA) "name" &&
        getStr c "company" == getStr (sourceResult rowA) "company") =
      some (sourceResult rowA) :=
  (c6_identity_dedup dfC1 "engineer" 20).2 (sourceResult rowA) (List.Mem.head _)

/-- Claim C7, counterexample: with max_results = -1 the returned list's
length is not at most max_results (Python's negative slice keeps elements). -/
theorem c7_counterexample :
    ¬ (((search_by_keywords dfC1 "engineer" (-1)).length : ℤ) ≤ -1) := by
  decide

/-- Claim C7, amended: for every nonnegative max_results the returned list
has length at most max_results. -/
theorem c7_le_max_results (df : List Row) (q : String) (n : ℤ) (h : 0 ≤ n) :
    ((search_by_keywords df q n).length : ℤ) ≤ n := by
  have hlen : (search_by_keywords df q n).length ≤ n.toNat := by
    rw [search_by_keywords]
    split
    · simp
    · rw [pySliceTo, if_pos h]
      exact List.length_take_le _ _
  omega

/-- Claim C7, witness: a concrete search truncated to 2 results has length
at most 2. -/
theorem c7_le_max_results_witness :
    ((search_by_keywords dfC1 "engineer" 2).length : ℤ) ≤ 2 :=
  c7_le_max_results dfC1 "engineer" 2 (by decide)

/-- Claim C8: the search is a pure function of the object state, the query
and max_results: it leaves the state (the loaded dataframe) unchanged, and a
second invocation on the post-call state returns the identical result
list. -/
theorem c8_pure_function (s : DemoState) (q : String) (n : ℤ) :
    (searchRun s q n).2 = s ∧
    (searchRun ((searchRun s q n).2) q n).1 = (searchRun s q n).1 := by
  have h2 : (searchRun s q n).2 = s := by
    rw [searchRun]
    split <;> rfl
  exact ⟨h2, by rw [h2]⟩

/-- Claim C9: the two sides of rowClash have distinct (name, company) pairs
("A_B", "C") versus ("A", "B_C") but the same concatenated dedup key
"A_B_C"; both enter the candidate list, and the later candidate is omitted
from the returned list. -/
theorem c9_key_collision :
    dedupKey (sourceResult rowClash) = dedupKey (similarResult rowClash) ∧
    ¬(getStr (sourceResult rowClash) "name" = getStr (similarResult rowClash) "name" ∧
      getStr (sourceResult rowClash) "company" = getStr (similarResult rowClash) "company") ∧
    (matchingResults [rowClash] (pyLower "engineer")).map (fun r => getStr r "name") =
      ["A_B", "A"] ∧
    (search_by_keywords [rowClash] "engineer" 20).map (fun r => getStr r "name") = ["A_B"] :=
  ⟨by decide, by decide, by decide, by decide⟩

/-- Claim C10: a row one of whose sides contains some query token as a
substring contributes both its source-side and its similar-side result to
the candidate list (before deduplication and truncation); in particular a
query matching only source-side fields still produces the row's similar-side
candidate. -/
theorem c10_both_sides_candidates (df : List Row) (q : String) (row : Row)
    (hrow : row ∈ df)
    (h : ∃ t ∈ pySplit (pyLower q),
      pyIn t (sourceTextOf row) = true ∨ pyIn t (similarTextOf row) = true) :
    sourceResult row ∈ matchingResults df (pyLower q) ∧
      similarResult row ∈ matchingResults df (pyLower q) := by
  have hm : rowMatch (pyLower q) row = true := by
    obtain ⟨t, ht, hcase⟩ := h
    rw [rowMatch, Bool.or_eq_true]
    rcases hcase with hc | hc
    · exact Or.inl (List.any_eq_true.mpr ⟨t, ht, hc⟩)
    · exact Or.inr (List.any_eq_true.mpr ⟨t, ht, hc⟩)
  constructor <;>
    · rw [matchingResults, List.mem_flatMap]
      exact ⟨row, hrow, by simp [hm]⟩

/-- Claim C10, witness: "engineer" occurs only in rowA's source-side text,
and both of rowA's sides appear among the candidates. -/
theorem c10_both_sides_candidates_witness :
    sourceResult rowA ∈ matchingResults [rowA] (pyLower "engineer") ∧
      similarResult rowA ∈ matchingResults [rowA] (pyLower "engineer") :=
  c10_both_sides_candidates [rowA] "engineer" rowA (List.Mem.head _) (by decide)
